import Mathlib

/-!
Shallow embedding of `app.py` (Inventory Management System).

The repository is a single Python file with three product classes
(`Electronics`, `Grocery`, `Clothing`) derived from an abstract `Product`,
an `Inventory` keyed by product id, and JSON save/load.  We model:

* Python's `dict` (insertion ordered, unique keys) as a `List Product`
  whose entries are looked up by `product_id` — faithful because the key
  under which a product is stored is always its own `_product_id`, which
  is never mutated.
* Exceptions as explicit results.  `DuplicateProductError`,
  `OutOfStockError`, `InvalidProductDataError` are the `InventoryError`
  family; `KeyError` and `ValueError` are Python built-ins outside the
  family.  A raising method returns the error; the caller's state is the
  state at the raise point (Python mutation semantics).
* `datetime.strptime(s, "%Y-%m-%d").date()` and `date.isoformat()` at the
  character level, following CPython's `_strptime` regex: `%Y` is exactly
  four digits, `%m`/`%d` are one or two digits in range, then
  `datetime.date` validates day-of-month and year ≥ 1.
* The JSON text layer (`json.dump`/`json.load` of a list of objects) is
  taken as the identity on the list of records: `save_to_file` produces
  the `List ProdDict` that `load_from_file` consumes.  A record
  (`ProdDict`) has an `Option` per field of the documented file format;
  `none` is an absent key (`KeyError` on access).
-/

/-- The three `InventoryError` subclasses of `app.py` lines 6–10. -/
inductive EKind where
  | DuplicateProduct
  | OutOfStock
  | InvalidProductData
deriving DecidableEq, Repr

/-- Errors that can escape `Inventory.load_from_file`: the `InventoryError`
family plus Python built-ins `ValueError` (from `strptime`) and `KeyError`
(from `item["type"]`, accessed outside the `try`). -/
inductive PyError where
  | inventory (k : EKind)
  | valueError
  | keyError
deriving DecidableEq, Repr

/-! ### Dates (`datetime.date`, `strptime "%Y-%m-%d"`, `isoformat`) -/

/-- A `datetime.date` value: year-month-day. -/
structure Date where
  year : Nat
  month : Nat
  day : Nat
deriving DecidableEq, Repr

/-- `date` comparison `a < b` (lexicographic on year, month, day). -/
def Date.isBefore (a b : Date) : Bool :=
  decide (a.year < b.year ∨ (a.year = b.year ∧
    (a.month < b.month ∨ (a.month = b.month ∧ a.day < b.day))))

/-- Gregorian leap year, as in `datetime`. -/
def isLeapYear (y : Nat) : Bool :=
  (y % 4 == 0 && y % 100 != 0) || y % 400 == 0

/-- Days in a month, as validated by `datetime.date`. -/
def daysInMonth (y m : Nat) : Nat :=
  if m = 2 then (if isLeapYear y then 29 else 28)
  else if m = 4 ∨ m = 6 ∨ m = 9 ∨ m = 11 then 30
  else 31

/-- The dates representable as a Python `datetime.date`
(`MINYEAR = 1`, `MAXYEAR = 9999`, valid month and day-of-month). -/
def Date.Valid (d : Date) : Prop :=
  1 ≤ d.year ∧ d.year ≤ 9999 ∧ 1 ≤ d.month ∧ d.month ≤ 12 ∧
    1 ≤ d.day ∧ d.day ≤ daysInMonth d.year d.month

instance (d : Date) : Decidable d.Valid := by
  unfold Date.Valid; infer_instance

/-- Decimal digit character (zero padding uses the value mod 10). -/
def digitChar (n : Nat) : Char :=
  Char.ofNat (48 + n % 10)

/-- Numeric value of an ASCII decimal digit character, `none` on anything
else (the digit-class check of CPython strptime regex). -/
def digitVal (c : Char) : Option Nat :=
  if '0' ≤ c ∧ c ≤ '9' then some (c.toNat - 48) else none

/-- Four-digit zero-padded rendering (`%04d`, used by `isoformat` for the
year; Python years are at most 9999). -/
def pad4 (n : Nat) : List Char :=
  [digitChar (n / 1000 % 10), digitChar (n / 100 % 10),
   digitChar (n / 10 % 10), digitChar (n % 10)]

/-- Two-digit zero-padded rendering (`%02d`). -/
def pad2 (n : Nat) : List Char :=
  [digitChar (n / 10 % 10), digitChar (n % 10)]

/-- `date.isoformat()`: `YYYY-MM-DD`. -/
def Date.isoformat (d : Date) : String :=
  ⟨pad4 d.year ++ '-' :: (pad2 d.month ++ '-' :: pad2 d.day)⟩

/-- Value of two digit characters. -/
def val2 (a b : Char) : Option Nat :=
  (digitVal a).bind fun x => (digitVal b).map fun y => 10 * x + y

/-- Value of four digit characters. -/
def val4 (a b c d : Char) : Option Nat :=
  (val2 a b).bind fun x => (val2 c d).map fun y => 100 * x + y

/-- `datetime.date(y, m, d)`: validates ranges, raising `ValueError`
(modelled as `none`) otherwise. -/
def mkValidDate (y m d : Nat) : Option Date :=
  if 1 ≤ y ∧ 1 ≤ m ∧ m ≤ 12 ∧ 1 ≤ d ∧ d ≤ daysInMonth y m then
    some ⟨y, m, d⟩
  else none

/-- `datetime.strptime(s, "%Y-%m-%d")` on the character list: exactly four
digits for `%Y`, one or two for `%m` and `%d` (CPython `_strptime` regex),
whole string consumed, then `datetime.date` range validation. -/
def parseDateChars : List Char → Option Date
  | [a, b, c, d, '-', e, '-', f] =>
    (val4 a b c d).bind fun y => (digitVal e).bind fun m =>
      (digitVal f).bind fun dd => mkValidDate y m dd
  | [a, b, c, d, '-', e, '-', f, g] =>
    (val4 a b c d).bind fun y => (digitVal e).bind fun m =>
      (val2 f g).bind fun dd => mkValidDate y m dd
  | [a, b, c, d, '-', e, f, '-', g] =>
    (val4 a b c d).bind fun y => (val2 e f).bind fun m =>
      (digitVal g).bind fun dd => mkValidDate y m dd
  | [a, b, c, d, '-', e, f, '-', g, h] =>
    (val4 a b c d).bind fun y => (val2 e f).bind fun m =>
      (val2 g h).bind fun dd => mkValidDate y m dd
  | _ => none

/-- `datetime.strptime(s, "%Y-%m-%d").date()`; `none` is the `ValueError`
raise. -/
def strptimeDate (s : String) : Option Date :=
  parseDateChars s.data

/-! ### Products -/

/-- The tagged union of the three concrete product classes.  Shared base
fields (`Product.__init__`, lines 14–18) come first; each variant carries
its own extra fields.  `price` is the JSON number the object was built
with (`ℚ`); `quantity_in_stock` is a Python `int`.  A `Grocery` stores the
already-parsed `expiry_date : Date` (line 62 parses at construction). -/
inductive Product where
  | electronics (product_id name : String) (price : ℚ)
      (quantity_in_stock : Int) (warranty_years : Int) (brand : String)
  | grocery (product_id name : String) (price : ℚ)
      (quantity_in_stock : Int) (expiry_date : Date)
  | clothing (product_id name : String) (price : ℚ)
      (quantity_in_stock : Int) (size material : String)
deriving DecidableEq, Repr

namespace Product

/-- `self._product_id`. -/
def product_id : Product → String
  | electronics pid _ _ _ _ _ => pid
  | grocery pid _ _ _ _ => pid
  | clothing pid _ _ _ _ _ => pid

/-- `self._name`. -/
def pname : Product → String
  | electronics _ nm _ _ _ _ => nm
  | grocery _ nm _ _ _ => nm
  | clothing _ nm _ _ _ _ => nm

/-- `self._price`. -/
def price : Product → ℚ
  | electronics _ _ pr _ _ _ => pr
  | grocery _ _ pr _ _ => pr
  | clothing _ _ pr _ _ _ => pr

/-- `self._quantity_in_stock`. -/
def quantity_in_stock : Product → Int
  | electronics _ _ _ q _ _ => q
  | grocery _ _ _ q _ => q
  | clothing _ _ _ q _ _ => q

/-- The assignment `self._quantity_in_stock = q` (all other fields kept). -/
def setQuantity : Product → Int → Product
  | electronics pid nm pr _ w b, q => electronics pid nm pr q w b
  | grocery pid nm pr _ e, q => grocery pid nm pr q e
  | clothing pid nm pr _ s m, q => clothing pid nm pr q s m

/-- `Product.restock` (lines 20–21): `self._quantity_in_stock += amount`,
no validation. -/
def restock (p : Product) (amount : Int) : Product :=
  p.setQuantity (p.quantity_in_stock + amount)

/-- `Product.sell` (lines 23–26): raises `OutOfStockError` when
`quantity > self._quantity_in_stock`, else decrements. -/
def sell (p : Product) (quantity : Int) : Except EKind Product :=
  if p.quantity_in_stock < quantity then .error .OutOfStock
  else .ok (p.setQuantity (p.quantity_in_stock - quantity))

/-- `Product.get_total_value` (lines 28–29): `price * quantity_in_stock`. -/
def get_total_value (p : Product) : ℚ :=
  p.price * (p.quantity_in_stock : ℚ)

end Product

/-- `Grocery.is_expired` (lines 64–65): `datetime.now().date() > expiry`.
`today` stands for `datetime.now().date()`; only `Grocery` has this.
Restricted to `Grocery`, else `False` (used to phrase the expiry sweep). -/
def isExpiredGrocery (today : Date) : Product → Bool
  | .grocery _ _ _ _ e => e.isBefore today
  | _ => false

/-! ### Serialized records (the JSON objects of the save file) -/

/-- One JSON object of the persisted array.  Each documented key is an
`Option`: `none` models an absent key, so `item[k]` is a `KeyError`.
Values carry the types of the documented file format (which is what
`to_dict` emits). -/
structure ProdDict where
  type? : Option String := none
  product_id? : Option String := none
  name? : Option String := none
  price? : Option ℚ := none
  quantity_in_stock? : Option Int := none
  warranty_years? : Option Int := none
  brand? : Option String := none
  expiry_date? : Option String := none
  size? : Option String := none
  material? : Option String := none
deriving DecidableEq, Repr

/-- `to_dict` (lines 35–42 plus each subclass override): the tagged record
with the base fields and the variant fields; `Grocery` serializes
`expiry_date.isoformat()`. -/
def Product.to_dict : Product → ProdDict
  | .electronics pid nm pr q w b =>
    { type? := some "Electronics", product_id? := some pid,
      name? := some nm, price? := some pr, quantity_in_stock? := some q,
      warranty_years? := some w, brand? := some b }
  | .grocery pid nm pr q e =>
    { type? := some "Grocery", product_id? := some pid,
      name? := some nm, price? := some pr, quantity_in_stock? := some q,
      expiry_date? := some e.isoformat }
  | .clothing pid nm pr q s m =>
    { type? := some "Clothing", product_id? := some pid,
      name? := some nm, price? := some pr, quantity_in_stock? := some q,
      size? := some s, material? := some m }

/-! ### Inventory -/

/-- `Inventory._products`: a Python dict id → product, insertion ordered.
The key of each entry is its product's own immutable `_product_id`, so an
ordered list of products with id lookup is the same map. -/
abbrev Inventory := List Product

/-- Dict lookup `self._products[pid]` / membership `pid in self._products`. -/
def findById (inv : Inventory) (pid : String) : Option Product :=
  inv.find? (fun p => p.product_id == pid)

/-- `Inventory.add_product` (lines 95–98): `DuplicateProductError` when the
id is present (inventory unchanged), else insert (at the end: dict
insertion order). -/
def add_product (inv : Inventory) (p : Product) : Inventory × Option EKind :=
  if (findById inv p.product_id).isSome then (inv, some .DuplicateProduct)
  else (inv ++ [p], none)

/-- `Inventory.remove_product` (lines 100–102): delete the entry with this
id if present, otherwise do nothing. -/
def remove_product (inv : Inventory) (pid : String) : Inventory :=
  inv.filter (fun p => !(p.product_id == pid))

/-- `Inventory.sell_product` (lines 113–115): if the id is present delegate
to `Product.sell` (which may raise `OutOfStockError`, leaving the product
unchanged); silent no-op when absent. -/
def sell_product (inv : Inventory) (pid : String) (quantity : Int) :
    Inventory × Option EKind :=
  match findById inv pid with
  | none => (inv, none)
  | some p =>
    match p.sell quantity with
    | .error e => (inv, some e)
    | .ok p2 => (inv.map (fun x => if x.product_id == pid then p2 else x), none)

/-- `Inventory.restock_product` (lines 117–119): delegate to
`Product.restock` if present; silent no-op when absent. -/
def restock_product (inv : Inventory) (pid : String) (quantity : Int) :
    Inventory :=
  inv.map (fun x => if x.product_id == pid then x.restock quantity else x)

/-- `Inventory.total_inventory_value` (lines 121–122). -/
def total_inventory_value (inv : Inventory) : ℚ :=
  (inv.map Product.get_total_value).sum

/-- `Inventory.remove_expired_products` (lines 124–128): first collect the
ids of the expired `Grocery` products, then delete each. -/
def remove_expired_products (today : Date) (inv : Inventory) : Inventory :=
  let to_remove := (inv.filter (isExpiredGrocery today)).map Product.product_id
  to_remove.foldl (fun acc pid => acc.filter (fun p => !(p.product_id == pid))) inv

/-- `Inventory.save_to_file` (lines 130–132): the JSON array written is the
list of `to_dict` records in dict order. -/
def save_to_file (inv : Inventory) : List ProdDict :=
  inv.map Product.to_dict

/-! ### `load_from_file` (lines 134–161) -/

/-- `Grocery.__init__` (lines 60–62): parses `expiry_date` with
`strptime`; an invalid string raises `ValueError` (a Python built-in, not
an `InventoryError`). -/
def mkGrocery (pid nm : String) (pr : ℚ) (q : Int) (expiry : String) :
    Except PyError Product :=
  match strptimeDate expiry with
  | some d => .ok (.grocery pid nm pr q d)
  | none => .error .valueError

/-- The `Electronics` arm of the loader's `try` (lines 142–146): read the
six fields; a missing key is a `KeyError`, caught at line 160 and re-raised
as `InvalidProductDataError`. -/
def parseElectronicsRec (item : ProdDict) : Except PyError Product :=
  match item.product_id?, item.name?, item.price?, item.quantity_in_stock?,
      item.warranty_years?, item.brand? with
  | some pid, some nm, some pr, some q, some w, some b =>
    .ok (.electronics pid nm pr q w b)
  | _, _, _, _, _, _ => .error (.inventory .InvalidProductData)

/-- The `Grocery` arm (lines 147–151): missing key → `KeyError` →
`InvalidProductDataError`; present fields go to `Grocery.__init__`, whose
`ValueError` is not caught by `except KeyError` and escapes as-is. -/
def parseGroceryRec (item : ProdDict) : Except PyError Product :=
  match item.product_id?, item.name?, item.price?, item.quantity_in_stock?,
      item.expiry_date? with
  | some pid, some nm, some pr, some q, some e => mkGrocery pid nm pr q e
  | _, _, _, _, _ => .error (.inventory .InvalidProductData)

/-- The `Clothing` arm (lines 152–156). -/
def parseClothingRec (item : ProdDict) : Except PyError Product :=
  match item.product_id?, item.name?, item.price?, item.quantity_in_stock?,
      item.size?, item.material? with
  | some pid, some nm, some pr, some q, some s, some m =>
    .ok (.clothing pid nm pr q s m)
  | _, _, _, _, _, _ => .error (.inventory .InvalidProductData)

/-- `self.add_product(product)` at line 159, inside the `try`: a
`DuplicateProductError` is not a `KeyError`, so it propagates unchanged. -/
def addPy (inv : Inventory) (p : Product) : Except PyError Inventory :=
  match add_product inv p with
  | (_, some e) => .error (.inventory e)
  | (inv2, none) => .ok inv2

/-- One iteration of the loader loop (lines 139–161).  `item["type"]` is
read before the `try`, so a record with no `"type"` key raises a bare
`KeyError`.  An unknown tag raises `InvalidProductDataError` (line 158),
which `except KeyError` does not catch. -/
def loadOne (inv : Inventory) (item : ProdDict) : Except PyError Inventory :=
  match item.type? with
  | none => .error .keyError
  | some t =>
    if t = "Electronics" then
      (parseElectronicsRec item).bind (addPy inv)
    else if t = "Grocery" then
      (parseGroceryRec item).bind (addPy inv)
    else if t = "Clothing" then
      (parseClothingRec item).bind (addPy inv)
    else .error (.inventory .InvalidProductData)

/-- The loader loop over the parsed array.  On an exception the loop stops;
`self._products` keeps the entries added so far. -/
def loadGo (inv : Inventory) : List ProdDict → Inventory × Option PyError
  | [] => (inv, none)
  | item :: rest =>
    match loadOne inv item with
    | .ok inv2 => loadGo inv2 rest
    | .error e => (inv, some e)

/-- `Inventory.load_from_file` (lines 134–161): `self._products.clear()`
discards the previous contents, then the loop runs from empty.  The result
is the final `_products` together with the escaped exception, if any. -/
def load_from_file (_inv : Inventory) (data : List ProdDict) :
    Inventory × Option PyError :=
  loadGo [] data

/-! ### Reachable-state invariants -/

/-- Dict keys are unique: distinct products have distinct ids. -/
def WF (inv : Inventory) : Prop :=
  (inv.map Product.product_id).Nodup

/-- A `Grocery` stores a representable `datetime.date`; other variants
have no date.  Holds for every product built by a constructor call,
because `Grocery.__init__` parses and validates its date. -/
def groceryDateOk : Product → Prop
  | .grocery _ _ _ _ e => e.Valid
  | _ => True

instance : DecidablePred groceryDateOk := fun p => by
  cases p <;> simp only [groceryDateOk] <;> infer_instance

/-- Every `Grocery` in the inventory stores a representable
`datetime.date`. -/
def DatesValid (inv : Inventory) : Prop :=
  ∀ p ∈ inv, groceryDateOk p


/-! ### Date round-trip lemmas -/

theorem daysInMonth_le (y m : Nat) : daysInMonth y m ≤ 31 := by
  unfold daysInMonth
  split
  · split <;> omega
  · split <;> omega

theorem digitVal_digitChar (k : Nat) (h : k ≤ 9) :
    digitVal (digitChar k) = some k := by
  interval_cases k <;> rfl

theorem val2_pad2 (n : Nat) (h : n ≤ 99) :
    val2 (digitChar (n / 10 % 10)) (digitChar (n % 10)) = some n := by
  rw [val2, digitVal_digitChar _ (by omega), digitVal_digitChar _ (by omega)]
  show some (10 * (n / 10 % 10) + n % 10) = some n
  congr 1
  omega

theorem val4_pad4 (n : Nat) (h : n ≤ 9999) :
    val4 (digitChar (n / 1000 % 10)) (digitChar (n / 100 % 10))
      (digitChar (n / 10 % 10)) (digitChar (n % 10)) = some n := by
  rw [val4, val2, val2, digitVal_digitChar _ (by omega),
    digitVal_digitChar _ (by omega), digitVal_digitChar _ (by omega),
    digitVal_digitChar _ (by omega)]
  show some (100 * (10 * (n / 1000 % 10) + n / 100 % 10) +
    (10 * (n / 10 % 10) + n % 10)) = some n
  congr 1
  omega

/-- `strptime` of `isoformat` recovers the date: serialization of the
`expiry_date` is lossless for every representable `datetime.date`. -/
theorem strptimeDate_isoformat (d : Date) (h : d.Valid) :
    strptimeDate d.isoformat = some d := by
  obtain ⟨y, m, dd⟩ := d
  simp only [Date.Valid] at h
  obtain ⟨h1, h2, h3, h4, h5, h6⟩ := h
  have hdm : dd ≤ 31 := le_trans h6 (daysInMonth_le y m)
  show parseDateChars
    [digitChar (y / 1000 % 10), digitChar (y / 100 % 10),
     digitChar (y / 10 % 10), digitChar (y % 10), '-',
     digitChar (m / 10 % 10), digitChar (m % 10), '-',
     digitChar (dd / 10 % 10), digitChar (dd % 10)] = some ⟨y, m, dd⟩
  rw [parseDateChars, val4_pad4 y h2, val2_pad2 m (by omega),
    val2_pad2 dd (by omega)]
  show mkValidDate y m dd = some ⟨y, m, dd⟩
  rw [mkValidDate, if_pos ⟨h1, h3, h4, h5, h6⟩]

/-! ### Inventory helper lemmas -/

theorem setQuantity_quantity (p : Product) (q : Int) :
    (p.setQuantity q).quantity_in_stock = q := by
  cases p <;> rfl

theorem setQuantity_price (p : Product) (q : Int) :
    (p.setQuantity q).price = p.price := by
  cases p <;> rfl

theorem findById_eq_none_iff (inv : Inventory) (pid : String) :
    findById inv pid = none ↔ ∀ p ∈ inv, p.product_id ≠ pid := by
  simp [findById, List.find?_eq_none]

theorem findById_mem (inv : Inventory) (pid : String) (p : Product)
    (h : findById inv pid = some p) : p ∈ inv :=
  List.mem_of_find?_eq_some h

theorem remove_product_of_absent (inv : Inventory) (pid : String)
    (h : findById inv pid = none) : remove_product inv pid = inv := by
  rw [remove_product, List.filter_eq_self]
  intro a ha
  rw [findById_eq_none_iff] at h
  simp [h a ha]

theorem restock_product_of_absent (inv : Inventory) (pid : String) (q : Int)
    (h : findById inv pid = none) : restock_product inv pid q = inv := by
  rw [findById_eq_none_iff] at h
  calc inv.map (fun x => if x.product_id == pid then x.restock q else x)
      = inv.map id := by
        apply List.map_congr_left
        intro a ha
        simp [h a ha]
    _ = inv := List.map_id inv

theorem foldl_erase_eq_filter (L : List String) (inv : Inventory) :
    L.foldl (fun acc pid => acc.filter (fun p => !(p.product_id == pid))) inv
      = inv.filter (fun p => !(L.contains p.product_id)) := by
  induction L generalizing inv with
  | nil => simp
  | cons pid L ih =>
    rw [List.foldl_cons, ih, List.filter_filter]
    apply List.filter_congr
    intro p _
    simp only [List.contains_cons, Bool.not_or, Bool.not_and]
    rw [Bool.and_comm]

/-- The expiry sweep, characterized: it is exactly the filter dropping the
expired groceries (given unique ids, which every reachable dict has). -/
theorem remove_expired_eq_filter (today : Date) (inv : Inventory)
    (h : WF inv) :
    remove_expired_products today inv
      = inv.filter (fun p => !(isExpiredGrocery today p)) := by
  rw [remove_expired_products, foldl_erase_eq_filter]
  apply List.filter_congr
  intro p hp
  congr 1
  cases hexp : isExpiredGrocery today p with
  | true =>
    have : p.product_id ∈
        (inv.filter (isExpiredGrocery today)).map Product.product_id :=
      List.mem_map_of_mem _ (List.mem_filter.mpr ⟨hp, hexp⟩)
    exact List.elem_eq_true_of_mem this
  | false =>
    rw [Bool.eq_false_iff]
    intro hcon
    obtain ⟨pid, hpid, hbeq⟩ :=
      List.contains_iff_exists_mem_beq.mp hcon
    obtain ⟨p2, hp2, rfl⟩ := List.mem_map.mp hpid
    have hp2f := List.mem_filter.mp hp2
    have : p = p2 :=
      List.inj_on_of_nodup_map h hp hp2f.1 (beq_iff_eq.mp hbeq)
    rw [this, hp2f.2] at hexp
    cases hexp

/-! ### Loader lemmas -/

theorem addPy_of_fresh (inv : Inventory) (p : Product)
    (h : findById inv p.product_id = none) :
    addPy inv p = .ok (inv ++ [p]) := by
  simp [addPy, add_product, h]

theorem wf_head_fresh (acc : Inventory) (p : Product) (rest : List Product)
    (hwf : WF (acc ++ p :: rest)) : findById acc p.product_id = none := by
  rw [findById_eq_none_iff]
  intro a ha heq
  rw [WF, List.map_append] at hwf
  obtain ⟨-, -, hdisj⟩ := List.nodup_append.mp hwf
  exact hdisj (List.mem_map_of_mem _ ha) (by simp [heq])

/-- Loading the record `to_dict p` into an inventory free of `p`'s id
appends exactly `p`: the codec is lossless per record. -/
theorem exceptBind_ok {ε α β : Type} (x : α) (f : α → Except ε β) :
    (Except.ok x : Except ε α).bind f = f x := rfl

theorem loadOne_to_dict (inv : Inventory) (p : Product)
    (hid : findById inv p.product_id = none) (hd : groceryDateOk p) :
    loadOne inv p.to_dict = .ok (inv ++ [p]) := by
  cases p with
  | electronics pid nm pr q w b =>
    have step : loadOne inv (Product.electronics pid nm pr q w b).to_dict
        = addPy inv (Product.electronics pid nm pr q w b) := by
      simp [loadOne, Product.to_dict, parseElectronicsRec, exceptBind_ok]
    rw [step]
    exact addPy_of_fresh inv _ hid
  | grocery pid nm pr q e =>
    have step : loadOne inv (Product.grocery pid nm pr q e).to_dict
        = addPy inv (Product.grocery pid nm pr q e) := by
      simp [loadOne, Product.to_dict, parseGroceryRec, mkGrocery,
        strptimeDate_isoformat e hd, exceptBind_ok]
    rw [step]
    exact addPy_of_fresh inv _ hid
  | clothing pid nm pr q s m =>
    have step : loadOne inv (Product.clothing pid nm pr q s m).to_dict
        = addPy inv (Product.clothing pid nm pr q s m) := by
      simp [loadOne, Product.to_dict, parseClothingRec, exceptBind_ok]
    rw [step]
    exact addPy_of_fresh inv _ hid

theorem loadGo_to_dict (rest : List Product) (acc : Inventory)
    (hwf : WF (acc ++ rest)) (hd : DatesValid rest) :
    loadGo acc (rest.map Product.to_dict) = (acc ++ rest, none) := by
  induction rest generalizing acc with
  | nil => simp [loadGo]
  | cons p rest ih =>
    have hid : findById acc p.product_id = none := wf_head_fresh acc p rest hwf
    rw [List.map_cons, loadGo, loadOne_to_dict acc p hid (hd p (by simp))]
    have hwf2 : WF ((acc ++ [p]) ++ rest) := by
      rw [← List.append_cons]; exact hwf
    have hd2 : DatesValid rest := fun x hx => hd x (by simp [hx])
    show loadGo (acc ++ [p]) (rest.map Product.to_dict) = (acc ++ p :: rest, none)
    rw [ih (acc ++ [p]) hwf2 hd2, ← List.append_cons]

theorem exceptBind_err {ε α β : Type} (e : ε) (f : α → Except ε β) :
    (Except.error e : Except ε α).bind f = .error e := rfl

theorem loadGo_append (xs ys : List ProdDict) (a b : Inventory)
    (h : loadGo a xs = (b, none)) : loadGo a (xs ++ ys) = loadGo b ys := by
  induction xs generalizing a with
  | nil =>
    simp only [loadGo, Prod.mk.injEq] at h
    obtain ⟨rfl, -⟩ := h
    rfl
  | cons x xs ih =>
    cases hx : loadOne a x with
    | ok a2 =>
      have h2 : loadGo a2 xs = (b, none) := by
        rw [loadGo, hx] at h; exact h
      show loadGo a (x :: (xs ++ ys)) = loadGo b ys
      rw [loadGo, hx]
      exact ih a2 h2
    | error e =>
      rw [loadGo, hx] at h
      simp at h

/-- A record whose `"type"` value is none of the three recognized tags
(line 158 of the source raises `InvalidProductDataError` for it). -/
def UnknownTag (r : ProdDict) : Prop :=
  ∃ t, r.type? = some t ∧ t ≠ "Electronics" ∧ t ≠ "Grocery" ∧ t ≠ "Clothing"

/-- A record with a recognized tag that lacks one of that variant's
required fields (`KeyError` in the `try`, re-raised at line 161 as
`InvalidProductDataError`). -/
def MissingField (r : ProdDict) : Prop :=
  (r.type? = some "Electronics" ∧ (r.product_id? = none ∨ r.name? = none ∨
    r.price? = none ∨ r.quantity_in_stock? = none ∨
    r.warranty_years? = none ∨ r.brand? = none)) ∨
  (r.type? = some "Grocery" ∧ (r.product_id? = none ∨ r.name? = none ∨
    r.price? = none ∨ r.quantity_in_stock? = none ∨ r.expiry_date? = none)) ∨
  (r.type? = some "Clothing" ∧ (r.product_id? = none ∨ r.name? = none ∨
    r.price? = none ∨ r.quantity_in_stock? = none ∨ r.size? = none ∨
    r.material? = none))

theorem parseElectronicsRec_missing (r : ProdDict)
    (h : r.product_id? = none ∨ r.name? = none ∨ r.price? = none ∨
      r.quantity_in_stock? = none ∨ r.warranty_years? = none ∨
      r.brand? = none) :
    parseElectronicsRec r = .error (.inventory .InvalidProductData) := by
  cases h1 : r.product_id? <;> cases h2 : r.name? <;> cases h3 : r.price? <;>
    cases h4 : r.quantity_in_stock? <;> cases h5 : r.warranty_years? <;>
    cases h6 : r.brand? <;> simp_all [parseElectronicsRec]

theorem parseGroceryRec_missing (r : ProdDict)
    (h : r.product_id? = none ∨ r.name? = none ∨ r.price? = none ∨
      r.quantity_in_stock? = none ∨ r.expiry_date? = none) :
    parseGroceryRec r = .error (.inventory .InvalidProductData) := by
  cases h1 : r.product_id? <;> cases h2 : r.name? <;> cases h3 : r.price? <;>
    cases h4 : r.quantity_in_stock? <;> cases h5 : r.expiry_date? <;>
    simp_all [parseGroceryRec]

theorem parseClothingRec_missing (r : ProdDict)
    (h : r.product_id? = none ∨ r.name? = none ∨ r.price? = none ∨
      r.quantity_in_stock? = none ∨ r.size? = none ∨ r.material? = none) :
    parseClothingRec r = .error (.inventory .InvalidProductData) := by
  cases h1 : r.product_id? <;> cases h2 : r.name? <;> cases h3 : r.price? <;>
    cases h4 : r.quantity_in_stock? <;> cases h5 : r.size? <;>
    cases h6 : r.material? <;> simp_all [parseClothingRec]

/-- A record with an unknown tag or a missing required field makes the
loop body raise `InvalidProductDataError`, whatever the inventory is. -/
theorem loadOne_of_bad (inv : Inventory) (r : ProdDict)
    (h : UnknownTag r ∨ MissingField r) :
    loadOne inv r = .error (.inventory .InvalidProductData) := by
  rcases h with ⟨t, ht, h1, h2, h3⟩ | ⟨ht, hm⟩ | ⟨ht, hm⟩ | ⟨ht, hm⟩
  · simp [loadOne, ht, h1, h2, h3]
  · simp [loadOne, ht, parseElectronicsRec_missing r hm, exceptBind_err]
  · simp [loadOne, ht, parseGroceryRec_missing r hm, exceptBind_err]
  · simp [loadOne, ht, parseClothingRec_missing r hm, exceptBind_err]

theorem addPy_ok (inv : Inventory) (p : Product) (inv2 : Inventory)
    (h : addPy inv p = .ok inv2) : inv2 = inv ++ [p] := by
  rw [addPy, add_product] at h
  by_cases hc : (findById inv p.product_id).isSome
  · rw [if_pos hc] at h
    have h2 : (Except.error (PyError.inventory EKind.DuplicateProduct) :
        Except PyError Inventory) = .ok inv2 := h
    cases h2
  · rw [if_neg hc] at h
    have h2 : (Except.ok (inv ++ [p]) : Except PyError Inventory) = .ok inv2 := h
    injection h2 with h3
    exact h3.symm

theorem parseElectronicsRec_ok (r : ProdDict) (p : Product)
    (h : parseElectronicsRec r = .ok p) :
    r.quantity_in_stock? = some p.quantity_in_stock := by
  rw [parseElectronicsRec] at h
  split at h
  · injection h with h2
    subst h2
    simp_all [Product.quantity_in_stock]
  · cases h

theorem parseGroceryRec_ok (r : ProdDict) (p : Product)
    (h : parseGroceryRec r = .ok p) :
    r.quantity_in_stock? = some p.quantity_in_stock := by
  rw [parseGroceryRec] at h
  split at h
  · rw [mkGrocery] at h
    split at h
    · injection h with h2
      subst h2
      simp_all [Product.quantity_in_stock]
    · cases h
  · cases h

theorem parseClothingRec_ok (r : ProdDict) (p : Product)
    (h : parseClothingRec r = .ok p) :
    r.quantity_in_stock? = some p.quantity_in_stock := by
  rw [parseClothingRec] at h
  split at h
  · injection h with h2
    subst h2
    simp_all [Product.quantity_in_stock]
  · cases h

/-- Inversion for a successful loop body: exactly one product was
appended, and its stock is the record's `"quantity_in_stock"` value. -/
theorem loadOne_ok_quantity (inv : Inventory) (r : ProdDict) (inv2 : Inventory)
    (h : loadOne inv r = .ok inv2) :
    ∃ p, inv2 = inv ++ [p] ∧
      r.quantity_in_stock? = some p.quantity_in_stock := by
  rw [loadOne] at h
  split at h
  · cases h
  · split_ifs at h
    · cases hp : parseElectronicsRec r with
      | error e => rw [hp, exceptBind_err] at h; cases h
      | ok p =>
        rw [hp, exceptBind_ok] at h
        exact ⟨p, addPy_ok inv p inv2 h, parseElectronicsRec_ok r p hp⟩
    · cases hp : parseGroceryRec r with
      | error e => rw [hp, exceptBind_err] at h; cases h
      | ok p =>
        rw [hp, exceptBind_ok] at h
        exact ⟨p, addPy_ok inv p inv2 h, parseGroceryRec_ok r p hp⟩
    · cases hp : parseClothingRec r with
      | error e => rw [hp, exceptBind_err] at h; cases h
      | ok p =>
        rw [hp, exceptBind_ok] at h
        exact ⟨p, addPy_ok inv p inv2 h, parseClothingRec_ok r p hp⟩

/-! ### The stock non-negativity invariant -/

/-- Every product in the inventory has non-negative stock. -/
def StockNonneg (inv : Inventory) : Prop :=
  ∀ p ∈ inv, 0 ≤ p.quantity_in_stock

theorem loadGo_nonneg (data : List ProdDict) (acc : Inventory)
    (hacc : StockNonneg acc)
    (hdata : ∀ r ∈ data, ∀ q, r.quantity_in_stock? = some q → 0 ≤ q) :
    StockNonneg (loadGo acc data).1 := by
  induction data generalizing acc with
  | nil => exact hacc
  | cons r rest ih =>
    cases hr : loadOne acc r with
    | ok acc2 =>
      rw [loadGo, hr]
      show StockNonneg (loadGo acc2 rest).1
      refine ih acc2 ?_ (fun x hx => hdata x (by simp [hx]))
      obtain ⟨p, rfl, hq⟩ := loadOne_ok_quantity acc r acc2 hr
      intro x hx
      rcases List.mem_append.mp hx with hx | hx
      · exact hacc x hx
      · have hxp : x = p := by simpa using hx
        subst hxp
        exact hdata r (by simp) _ hq
    | error e =>
      rw [loadGo, hr]
      exact hacc

/-! ### Public-operation sequences -/

/-- One call to a mutating public `Inventory` method (the operations the
CLI menu can reach).  `save_to_file` and the searches do not mutate and
are omitted. -/
inductive Op where
  | add (p : Product)
  | remove (pid : String)
  | sell (pid : String) (quantity : Int)
  | restock (pid : String) (quantity : Int)
  | removeExpired (today : Date)
  | load (data : List ProdDict)

/-- Execute one operation.  A raised error leaves the state the method had
at the raise point, exactly as the Python methods do. -/
def applyOp (inv : Inventory) : Op → Inventory
  | .add p => (add_product inv p).1
  | .remove pid => remove_product inv pid
  | .sell pid q => (sell_product inv pid q).1
  | .restock pid q => restock_product inv pid q
  | .removeExpired t => remove_expired_products t inv
  | .load data => (load_from_file inv data).1

/-- The argument restrictions under which an operation cannot inject
negative stock: products enter (directly or from load records) with
non-negative quantity, and restock amounts are non-negative.  `sell`,
`remove` and the sweep need no restriction. -/
def OpSafe : Op → Prop
  | .add p => 0 ≤ p.quantity_in_stock
  | .restock _ q => 0 ≤ q
  | .load data => ∀ r ∈ data, ∀ q, r.quantity_in_stock? = some q → 0 ≤ q
  | _ => True

theorem applyOp_nonneg (inv : Inventory) (op : Op)
    (hinv : StockNonneg inv) (hop : OpSafe op) :
    StockNonneg (applyOp inv op) := by
  cases op with
  | add p =>
    rw [applyOp, add_product]
    split
    · exact hinv
    · intro x hx
      rcases List.mem_append.mp hx with hx | hx
      · exact hinv x hx
      · rw [List.mem_singleton] at hx
        subst hx
        exact hop
  | remove pid =>
    rw [applyOp, remove_product]
    intro x hx
    exact hinv x (List.mem_of_mem_filter hx)
  | sell pid q =>
    rw [applyOp, sell_product]
    cases hf : findById inv pid with
    | none => exact hinv
    | some p =>
      show StockNonneg ((match p.sell q with
        | Except.error e => (inv, some e)
        | Except.ok p2 =>
          (inv.map (fun x => if Product.product_id x == pid then p2 else x), none)).1)
      cases hs : Product.sell p q with
      | error e =>
        exact hinv
      | ok p2 =>
        show StockNonneg (inv.map (fun x => if Product.product_id x == pid then p2 else x))
        have hq : 0 ≤ p2.quantity_in_stock := by
          rw [Product.sell] at hs
          by_cases hlt : p.quantity_in_stock < q
          · rw [if_pos hlt] at hs
            cases hs
          · rw [if_neg hlt] at hs
            injection hs with h2
            rw [← h2, setQuantity_quantity]
            omega
        intro x hx
        obtain ⟨a, ha, hax⟩ := List.mem_map.mp hx
        by_cases hc : (a.product_id == pid) = true
        · rw [if_pos hc] at hax
          rw [← hax]
          exact hq
        · rw [if_neg hc] at hax
          rw [← hax]
          exact hinv a ha
  | restock pid q =>
    have hq : 0 ≤ q := hop
    rw [applyOp, restock_product]
    intro x hx
    obtain ⟨a, ha, hax⟩ := List.mem_map.mp hx
    by_cases hc : (a.product_id == pid) = true
    · rw [if_pos hc] at hax
      rw [← hax, Product.restock, setQuantity_quantity]
      have := hinv a ha
      omega
    · rw [if_neg hc] at hax
      rw [← hax]
      exact hinv a ha
  | removeExpired t =>
    rw [applyOp, remove_expired_products, foldl_erase_eq_filter]
    intro x hx
    exact hinv x (List.mem_of_mem_filter hx)
  | load data =>
    rw [applyOp, load_from_file]
    exact loadGo_nonneg data [] (fun p hp => absurd hp (List.not_mem_nil p)) hop

instance (inv : Inventory) : Decidable (WF inv) := by
  unfold WF; infer_instance

instance (inv : Inventory) : Decidable (DatesValid inv) := by
  unfold DatesValid; infer_instance

instance (inv : Inventory) : Decidable (StockNonneg inv) := by
  unfold StockNonneg; infer_instance

/-! ### Concrete records used as test inputs -/

/-- A well-formed `Electronics` record, as `save_to_file` writes one. -/
def recElectronics1 : ProdDict :=
  { type? := some "Electronics", product_id? := some "E1", name? := some "TV",
    price? := some 100, quantity_in_stock? := some 5,
    warranty_years? := some 2, brand? := some "Acme" }

/-- A record with the unrecognized tag `"Toy"`. -/
def recToy : ProdDict :=
  { type? := some "Toy", product_id? := some "T1", name? := some "Robot",
    price? := some 10, quantity_in_stock? := some 1 }

/-- A `Grocery` record whose expiry string `strptime` rejects. -/
def recGroceryBadDate : ProdDict :=
  { type? := some "Grocery", product_id? := some "G1", name? := some "Milk",
    price? := some 3, quantity_in_stock? := some 7,
    expiry_date? := some "not-a-date" }

/-! ### Claims -/

/-- C1: round-trip persistence.  For every inventory (reachable dict: ids
unique, grocery dates representable) holding any mix of Electronics,
Grocery and Clothing products, `load_from_file` applied to what
`save_to_file` produced reconstructs the identical inventory — same
products, with identical field values, in the same order — and raises no
error, whatever the inventory held before the load. -/
theorem C1_round_trip (prior inv : Inventory) (hwf : WF inv)
    (hd : DatesValid inv) :
    load_from_file prior (save_to_file inv) = (inv, none) := by
  rw [load_from_file, save_to_file]
  have h := loadGo_to_dict inv [] (by simpa using hwf) hd
  simpa using h

theorem C1_round_trip_witness :
    load_from_file [Product.clothing "Z" "Hat" 5 1 "S" "wool"]
      (save_to_file
        [Product.electronics "E1" "TV" 100 5 2 "Acme",
         Product.grocery "G1" "Milk" 3 7 ⟨2024, 2, 29⟩,
         Product.clothing "C1" "Shirt" 20 4 "M" "cotton"]) =
      ([Product.electronics "E1" "TV" 100 5 2 "Acme",
        Product.grocery "G1" "Milk" 3 7 ⟨2024, 2, 29⟩,
        Product.clothing "C1" "Shirt" 20 4 "M" "cotton"], none) :=
  C1_round_trip _ _ (by decide) (by decide)

/-- C3: selling more than the current stock raises `OutOfStockError` (the
`Product.sell` guard) and leaves the inventory — in particular that
product's `quantity_in_stock` — unchanged. -/
theorem C3_sell_out_of_stock (inv : Inventory) (pid : String) (p : Product)
    (q : Int) (hf : findById inv pid = some p)
    (hq : p.quantity_in_stock < q) :
    p.sell q = .error .OutOfStock ∧
      sell_product inv pid q = (inv, some .OutOfStock) := by
  have hs : p.sell q = .error .OutOfStock := by
    rw [Product.sell, if_pos hq]
  refine ⟨hs, ?_⟩
  rw [sell_product, hf]
  show (match p.sell q with
    | Except.error e => (inv, some e)
    | Except.ok p2 =>
      (inv.map (fun x => if Product.product_id x == pid then p2 else x), none))
    = (inv, some EKind.OutOfStock)
  rw [hs]

theorem C3_sell_out_of_stock_witness :
    sell_product [Product.electronics "E1" "TV" 100 5 2 "Acme"] "E1" 7
      = ([Product.electronics "E1" "TV" 100 5 2 "Acme"], some .OutOfStock) :=
  (C3_sell_out_of_stock _ "E1" (Product.electronics "E1" "TV" 100 5 2 "Acme")
    7 (by decide) (by decide)).2

/-- C5: the expiry sweep removes exactly the Grocery products whose
expiry date is strictly before today (`is_expired`), keeping every other
product — all Electronics and Clothing included — unchanged and in
order (stated as a filter equation over the inventory). -/
theorem C5_remove_expired (today : Date) (inv : Inventory) (h : WF inv) :
    remove_expired_products today inv
      = inv.filter (fun p => !(isExpiredGrocery today p)) :=
  remove_expired_eq_filter today inv h

theorem C5_remove_expired_witness :
    remove_expired_products ⟨2024, 1, 1⟩
      [Product.grocery "G1" "Milk" 3 7 ⟨2023, 2, 28⟩,
       Product.grocery "G2" "Rice" 2 5 ⟨2025, 6, 30⟩,
       Product.electronics "E1" "TV" 100 5 2 "Acme",
       Product.clothing "C1" "Shirt" 20 4 "M" "cotton"]
      = [Product.grocery "G2" "Rice" 2 5 ⟨2025, 6, 30⟩,
         Product.electronics "E1" "TV" 100 5 2 "Acme",
         Product.clothing "C1" "Shirt" 20 4 "M" "cotton"] := by
  rw [C5_remove_expired ⟨2024, 1, 1⟩ _ (by decide)]
  decide

/-- C6: `add_product` with an id already in the map raises
`DuplicateProductError` and leaves the inventory unchanged; with a fresh
id it inserts the product (at the end, per dict insertion order). -/
theorem C6_add_duplicate (inv : Inventory) (p : Product) :
    ((findById inv p.product_id).isSome →
      add_product inv p = (inv, some .DuplicateProduct)) ∧
    (findById inv p.product_id = none →
      add_product inv p = (inv ++ [p], none)) := by
  constructor
  · intro h
    rw [add_product, if_pos h]
  · intro h
    rw [add_product, if_neg (by simp [h])]

theorem C6_add_duplicate_witness :
    add_product [Product.electronics "E1" "TV" 100 5 2 "Acme"]
        (Product.grocery "E1" "Milk" 3 7 ⟨2024, 1, 1⟩)
      = ([Product.electronics "E1" "TV" 100 5 2 "Acme"],
         some .DuplicateProduct) ∧
    add_product [] (Product.electronics "E1" "TV" 100 5 2 "Acme")
      = ([Product.electronics "E1" "TV" 100 5 2 "Acme"], none) :=
  ⟨(C6_add_duplicate [Product.electronics "E1" "TV" 100 5 2 "Acme"]
      (Product.grocery "E1" "Milk" 3 7 ⟨2024, 1, 1⟩)).1 (by decide),
   (C6_add_duplicate [] (Product.electronics "E1" "TV" 100 5 2 "Acme")).2
      (by decide)⟩

/-- C7: selling `q ≤ stock` succeeds, the stock decreases by exactly `q`,
and `get_total_value` of the updated product is its (unchanged) price
times the new stock. -/
theorem C7_sell_decrements (p : Product) (q : Int)
    (h : q ≤ p.quantity_in_stock) :
    ∃ p2, p.sell q = .ok p2 ∧
      p2.quantity_in_stock = p.quantity_in_stock - q ∧
      p2.get_total_value = p.price * ((p.quantity_in_stock - q : Int) : ℚ) := by
  refine ⟨p.setQuantity (p.quantity_in_stock - q), ?_,
    setQuantity_quantity p _, ?_⟩
  · rw [Product.sell, if_neg (not_lt.mpr h)]
  · rw [Product.get_total_value, setQuantity_price, setQuantity_quantity]

theorem C7_sell_decrements_witness :
    ∃ p2, (Product.electronics "E1" "TV" 100 5 2 "Acme").sell 2 = .ok p2 ∧
      p2.quantity_in_stock = (5 : Int) - 2 ∧
      p2.get_total_value = 100 * (((5 : Int) - 2 : Int) : ℚ) :=
  C7_sell_decrements (Product.electronics "E1" "TV" 100 5 2 "Acme") 2
    (by decide)

/-- C9: `remove_product`, `sell_product` and `restock_product` on an id
not in the map are silent no-ops: no error value arises and the
inventory is returned unchanged. -/
theorem C9_missing_id_noop (inv : Inventory) (pid : String) (q : Int)
    (h : findById inv pid = none) :
    remove_product inv pid = inv ∧
    sell_product inv pid q = (inv, none) ∧
    restock_product inv pid q = inv := by
  refine ⟨remove_product_of_absent inv pid h, ?_,
    restock_product_of_absent inv pid q h⟩
  rw [sell_product, h]

theorem C9_missing_id_noop_witness :
    remove_product [Product.electronics "E1" "TV" 100 5 2 "Acme"] "X" =
      [Product.electronics "E1" "TV" 100 5 2 "Acme"] ∧
    sell_product [Product.electronics "E1" "TV" 100 5 2 "Acme"] "X" 3 =
      ([Product.electronics "E1" "TV" 100 5 2 "Acme"], none) ∧
    restock_product [Product.electronics "E1" "TV" 100 5 2 "Acme"] "X" 3 =
      [Product.electronics "E1" "TV" 100 5 2 "Acme"] :=
  C9_missing_id_noop [Product.electronics "E1" "TV" 100 5 2 "Acme"] "X" 3
    (by decide)

/-- C2 (amended): starting from any inventory whose stocks are all
non-negative, every sequence of mutating public operations in which each
added product (directly or from a load record) carries non-negative
quantity and each restock amount is non-negative keeps every
`quantity_in_stock` non-negative.  `sell`, `remove` and the expiry sweep
need no restriction: in particular `sell` fails rather than underflowing,
for arbitrary integer arguments. -/
theorem C2_stock_invariant (inv : Inventory) (ops : List Op)
    (hinv : StockNonneg inv) (hops : ∀ op ∈ ops, OpSafe op) :
    StockNonneg (ops.foldl applyOp inv) := by
  induction ops generalizing inv with
  | nil => exact hinv
  | cons op ops ih =>
    rw [List.foldl_cons]
    exact ih (applyOp inv op)
      (applyOp_nonneg inv op hinv (hops op (by simp)))
      (fun x hx => hops x (by simp [hx]))

theorem C2_stock_invariant_witness :
    StockNonneg ([Op.add (Product.electronics "E1" "TV" 100 5 2 "Acme"),
      Op.restock "E1" 3, Op.sell "E1" 2, Op.sell "E1" 99,
      Op.removeExpired ⟨2024, 1, 1⟩, Op.remove "X"].foldl applyOp []) :=
  C2_stock_invariant [] _ (by decide)
    (by intro op hop; fin_cases hop <;> simp only [OpSafe] <;> decide)

/-- C2 counterexample: the claim as stated — stock stays non-negative
after any operation sequence with arbitrary integer arguments — is false:
`restock` performs `quantity += amount` with no validation, so a negative
amount drives the stock of an existing product below zero. -/
theorem C2_counterexample :
    ¬ StockNonneg ([Op.add (Product.electronics "E1" "TV" 100 0 2 "Acme"),
      Op.restock "E1" (-1)].foldl applyOp []) := by
  decide

/-- C4 (amended): when every record before position k loads successfully
and record k has an unrecognized type tag, or a recognized tag with a
required field missing, `load_from_file` fails with
`InvalidProductDataError`, and the final inventory is exactly the one
rebuilt from the records before k — nothing from the offending record is
added. -/
theorem C4_bad_record_invalid_data (pre : List ProdDict) (r : ProdDict)
    (rest : List ProdDict) (acc prior : Inventory)
    (hpre : loadGo [] pre = (acc, none))
    (hbad : UnknownTag r ∨ MissingField r) :
    load_from_file prior (pre ++ r :: rest)
      = (acc, some (.inventory .InvalidProductData)) := by
  rw [load_from_file, loadGo_append pre (r :: rest) [] acc hpre, loadGo,
    loadOne_of_bad acc r hbad]

theorem C4_bad_record_witness :
    load_from_file [] ([recElectronics1] ++ recToy :: [])
      = ([Product.electronics "E1" "TV" 100 5 2 "Acme"],
         some (.inventory .InvalidProductData)) :=
  C4_bad_record_invalid_data [recElectronics1] recToy []
    [Product.electronics "E1" "TV" 100 5 2 "Acme"] [] (by decide)
    (Or.inl ⟨"Toy", by decide, by decide, by decide, by decide⟩)

/-- C4 counterexample: the claim quantifies over every input file that
contains a bad record, but load stops at the first failure, so a file
whose earlier records already fail — here a duplicated id — fails with
`DuplicateProductError`, not `InvalidProductDataError`, even though the
file contains an unrecognized-tag record. -/
theorem C4_counterexample :
    UnknownTag recToy ∧
    recToy ∈ [recElectronics1, recElectronics1, recToy] ∧
    load_from_file [] [recElectronics1, recElectronics1, recToy]
      = ([Product.electronics "E1" "TV" 100 5 2 "Acme"],
         some (.inventory .DuplicateProduct)) ∧
    (PyError.inventory .DuplicateProduct ≠ PyError.inventory .InvalidProductData) :=
  ⟨⟨"Toy", by decide, by decide, by decide, by decide⟩, by decide,
    by decide, by decide⟩

/-- C8: load is not atomic.  `_products.clear()` runs before any record is
validated, so when the loop fails at record k (with any escaped error `e`)
the resulting inventory is exactly the products rebuilt from the records
before k — whatever the inventory held before `load_from_file` is gone. -/
theorem C8_load_not_atomic (pre : List ProdDict) (r : ProdDict)
    (rest : List ProdDict) (acc prior : Inventory) (e : PyError)
    (hpre : loadGo [] pre = (acc, none))
    (hr : loadOne acc r = .error e) :
    load_from_file prior (pre ++ r :: rest) = (acc, some e) := by
  rw [load_from_file, loadGo_append pre (r :: rest) [] acc hpre, loadGo, hr]

theorem C8_load_not_atomic_witness :
    load_from_file [Product.clothing "Z" "Hat" 5 1 "S" "wool"]
      ([recElectronics1] ++ recElectronics1 :: [recToy])
      = ([Product.electronics "E1" "TV" 100 5 2 "Acme"],
         some (.inventory .DuplicateProduct)) :=
  C8_load_not_atomic [recElectronics1] recElectronics1 [recToy]
    [Product.electronics "E1" "TV" 100 5 2 "Acme"]
    [Product.clothing "Z" "Hat" 5 1 "S" "wool"]
    (.inventory .DuplicateProduct) (by decide) rfl

/-- C10 (amended): when the records before a Grocery record all load
successfully and that record has every required field but an expiry
string `strptime` rejects, load fails with `ValueError` — which is not
`InvalidProductDataError`, nor any `InventoryError` kind, because
`except KeyError` does not catch it. -/
theorem C10_invalid_date_value_error (pre : List ProdDict) (r : ProdDict)
    (rest : List ProdDict) (acc prior : Inventory)
    (pid nm : String) (pr : ℚ) (q : Int) (s : String)
    (hpre : loadGo [] pre = (acc, none))
    (ht : r.type? = some "Grocery")
    (h1 : r.product_id? = some pid) (h2 : r.name? = some nm)
    (h3 : r.price? = some pr) (h4 : r.quantity_in_stock? = some q)
    (h5 : r.expiry_date? = some s) (hs : strptimeDate s = none) :
    load_from_file prior (pre ++ r :: rest) = (acc, some .valueError) ∧
    ∀ k : EKind, PyError.valueError ≠ PyError.inventory k := by
  have hone : loadOne acc r = .error .valueError := by
    simp [loadOne, ht, parseGroceryRec, h1, h2, h3, h4, h5, mkGrocery, hs,
      exceptBind_err]
  refine ⟨?_, fun k h => nomatch h⟩
  rw [load_from_file, loadGo_append pre (r :: rest) [] acc hpre, loadGo, hone]

theorem C10_invalid_date_witness :
    load_from_file [] ([recElectronics1] ++ recGroceryBadDate :: [])
      = ([Product.electronics "E1" "TV" 100 5 2 "Acme"],
         some .valueError) :=
  (C10_invalid_date_value_error [recElectronics1] recGroceryBadDate []
    [Product.electronics "E1" "TV" 100 5 2 "Acme"] [] "G1" "Milk" 3 7
    "not-a-date" (by decide) (by decide) (by decide) (by decide) (by decide)
    (by decide) (by decide) (by decide)).1

/-- C10 counterexample: quantified over every file containing a
bad-expiry Grocery record, the claim fails — an earlier record can fail
first, and then the load error is `InvalidProductDataError` (inside the
`InventoryError` family), not a `ValueError`. -/
theorem C10_counterexample :
    (recGroceryBadDate.type? = some "Grocery" ∧
     recGroceryBadDate.expiry_date? = some "not-a-date" ∧
     strptimeDate "not-a-date" = none) ∧
    recGroceryBadDate ∈ [recToy, recGroceryBadDate] ∧
    load_from_file [] [recToy, recGroceryBadDate]
      = ([], some (.inventory .InvalidProductData)) :=
  ⟨⟨by decide, by decide, by decide⟩, by decide, by decide⟩
